import Mathlib

/-!
# Verification of `seqlib/encode.py`

A shallow embedding of the ENCODE client library `seqlib` (file
`src/seqlib/encode.py`) and proofs of the specification claims about it.

The Python module defines an entity hierarchy
`Entry` → (`SeqFile` → `RawFile` / `ProcessedFile`) and `Entry` → `Exp`,
plus a generator `Exp.fetch_file` that walks the experiment document's
embedded file list, classifies every sub-document as raw or processed and
yields typed file entities.

Modelling decisions:
* JSON values are the inductive `Json`; a Python `dict` is an association
  list, lookup takes the first matching key (a decoded JSON object never
  has duplicate keys, so this is exact).
* Python exceptions are the inductive `PyErr`; fallible code runs in
  `Except PyErr`.  `d[k]` on a dict raises `KeyError` when the key is
  absent and `TypeError`-like errors when the receiver is not a dict;
  `l[i]` raises `IndexError` when out of range.  The `try/except KeyError`
  in `_parse_file_json` catches exactly `PyErr.keyError`.
* Network effects: every constructor takes an oracle
  `fetch : String → Json` (URL ↦ decoded response body) and additionally
  returns the number of HTTP GET requests it issued, so frame claims
  ("zero or one request", "no I/O during iteration") become provable
  statements about that count.
* The generator `fetch_file` is modelled by `fetchFileLoop`, which returns
  the list of entities yielded before the first uncaught exception, the
  exception (if any) that terminates the iteration, and the total request
  count.  This captures lazy generator semantics: creating the generator
  is pure, and an exception in the k-th admitted item surfaces only after
  the previous items have been yielded.
-/

/-- A JSON value, doubling as the Python runtime value of every field the
library projects out of a document (decoded JSON only ever produces these
shapes; `num` models the integral numbers that appear in the documents). -/
inductive Json where
  | null : Json
  | bool : Bool → Json
  | num : Int → Json
  | str : String → Json
  | arr : List Json → Json
  | obj : List (String × Json) → Json
deriving Inhabited

/-- Python `v == s` where `s` is a string and `v` a decoded JSON value:
true exactly when `v` is that same string (Python equality between a
string and a value of any other type is `False`). -/
def pyEqStr (v : Json) (s : String) : Bool :=
  match v with
  | .str t => t == s
  | _ => false

/-- The Python exceptions the embedded code can raise. -/
inductive PyErr where
  | keyError : PyErr
  | indexError : PyErr
  | typeError : PyErr
  | exception : String → PyErr
deriving DecidableEq, Repr, Inhabited

/-- Python `d[k]` on a decoded JSON value: `KeyError` when the key is
absent from the object, `TypeError` when the receiver is not an object
(Python raises `TypeError` for `[...] [str]` and similar). -/
def jget (j : Json) (k : String) : Except PyErr Json :=
  match j with
  | .obj kvs =>
    match kvs.find? (fun kv => kv.1 == k) with
    | some kv => .ok kv.2
    | none => .error .keyError
  | _ => .error .typeError

/-- Python `l[i]` on a decoded JSON value: `IndexError` when out of
range, `TypeError` when the receiver is not an array. -/
def jindex (j : Json) (i : Nat) : Except PyErr Json :=
  match j with
  | .arr xs =>
    match xs.get? i with
    | some x => .ok x
    | none => .error .indexError
  | _ => .error .typeError

/-- Python `l[i]` on a list of strings (the result of `str.split`). -/
def pyListGet (l : List String) (i : Nat) : Except PyErr String :=
  match l.get? i with
  | some x => .ok x
  | none => .error .indexError

/-- Python `'%s' % v` for the values the library formats.  Accessions and
entity type segments are always strings, so only the `str` branch is ever
exercised by the claims; the remaining branches render the other decoded
shapes the way `str()` renders the corresponding Python values where that
is simple (`None`, `True`, numbers). -/
def pyStr (v : Json) : String :=
  match v with
  | .str s => s
  | .num n => toString n
  | .bool true => "True"
  | .bool false => "False"
  | .null => "None"
  | .arr _ => "<list>"
  | .obj _ => "<dict>"

/-- Python `s.split(sep)` for a single-character separator, on the
character list of `s`: splits at every occurrence of `sep`, keeping
empty pieces, so `split "2_1" = [["2"],["1"]]` and `split "" = [[]]`
(exactly Python's behaviour). -/
def pySplitAux (sep : Char) : List Char → List Char → List (List Char)
  | [], acc => [acc.reverse]
  | c :: rest, acc =>
    if c = sep then acc.reverse :: pySplitAux sep rest []
    else pySplitAux sep rest (c :: acc)

/-- Python `s.split(sep)` for a single-character separator. -/
def pySplit (s : String) (sep : Char) : List String :=
  (pySplitAux sep s.data []).map (fun l => String.mk l)

/-- The characters up to (excluding) the first occurrence of `c`. -/
def takeUntil (c : Char) : List Char → List Char
  | [] => []
  | x :: xs => if x = c then [] else x :: takeUntil c xs

/-- The scheme-and-host prefix of an absolute URL: everything up to
(excluding) the first `/` after the `//` of the scheme, so
`origin "https://host/path" = "https://host"`. -/
def originAux : List Char → List Char
  | [] => []
  | '/' :: '/' :: rest => '/' :: '/' :: takeUntil '/' rest
  | c :: rest => c :: originAux rest

/-- The scheme-and-host prefix of an absolute URL. -/
def origin (base : String) : String :=
  String.mk (originAux base.data)

/-- Whether a string begins with `/` (a root-relative URL path). -/
def startsWithSlash (s : String) : Bool :=
  match s.data with
  | '/' :: _ => true
  | _ => false

/-- Models `requests.compat.urljoin` for the inputs the library produces:
the base is an absolute URL and the relative part is either a
root-relative path (starting with `/`, replacing the base's path) or a
plain relative suffix. -/
def urljoin (base rel : String) : String :=
  if startsWithSlash rel then origin base ++ rel else base ++ rel

/-- The state built by `Entry.__init__`: accession, resource path `id`,
the fixed base URL, the resolved URL and the backing JSON document. -/
structure Entry where
  accession : Json
  id : String
  baseurl : String
  url : String
  json : Json

/-- `Entry.__init__(eid, etype, json_d)` together with its request count.
`etype is None` raises before anything is initialised and before any
network activity; otherwise the resource path and URL are built, and the
backing document is either the supplied `json_d` (no fetch) or the body
returned by one HTTP GET of the resolved URL (`_fetch_json`). -/
def entryInit (eid : Json) (etype : Option String) (json_d : Option Json)
    (fetch : String → Json) : Except PyErr Entry × Nat :=
  match etype with
  | none => (.error (.exception "etype should not be None!"), 0)
  | some t =>
    let id := "/" ++ t ++ "/" ++ pyStr eid ++ "/"
    let baseurl := "https://www.encodeproject.org/"
    let url := urljoin baseurl id
    match json_d with
    | none => (.ok ⟨eid, id, baseurl, url, fetch url⟩, 1)
    | some j => (.ok ⟨eid, id, baseurl, url, j⟩, 0)

/-- Shape (a) of replicate extraction, exactly the body of the `try`
block in `SeqFile._parse_file_json`: the `replicate` object supplies
`biological_replicate_number`, `technical_replicate_number` and the
nested `library.strand_specificity` flag.  Returns the triple
(biological_replicate, technical_replicate, is_stranded). -/
def shapeA (j : Json) : Except PyErr (Json × Json × Json) := do
  let replicate ← jget j "replicate"
  let b ← jget replicate "biological_replicate_number"
  let t ← jget replicate "technical_replicate_number"
  let library ← jget replicate "library"
  let s ← jget library "strand_specificity"
  pure (b, t, s)

/-- Shape (b) of replicate extraction, exactly the body of the `except
KeyError` block: `technical_replicates[0]` is split on `'_'`, the first
piece is the biological and the second the technical replicate, and
`is_stranded` is the constant `False`.  A non-string first element models
Python's failure of `.split` on it. -/
def shapeB (j : Json) : Except PyErr (Json × Json × Json) := do
  let trs ← jget j "technical_replicates"
  let first ← jindex trs 0
  match first with
  | .str s =>
    let parts := pySplit s '_'
    let b ← pyListGet parts 0
    let t ← pyListGet parts 1
    pure (.str b, .str t, .bool false)
  | _ => .error .typeError

/-- The `try ... except KeyError ...` of `SeqFile._parse_file_json`:
shape (a) is attempted first; only a `KeyError` (a missing key) triggers
the fall back to shape (b); any other exception propagates.  When the
`try` block fails partway its partial attribute assignments are
overwritten by the `except` block, so the net effect on the constructed
object is exactly this triple. -/
def parseReplicate (j : Json) : Except PyErr (Json × Json × Json) :=
  match shapeA j with
  | .ok r => .ok r
  | .error .keyError => shapeB j
  | .error e => .error e

/-- The state built by `SeqFile.__init__`: the underlying `Entry` plus
the fields `_parse_file_json` projects out of the backing document. -/
structure SeqFile where
  entry : Entry
  exp : Json
  biological_replicate : Json
  technical_replicate : Json
  is_stranded : Json
  file_type : Json
  status : Json
  file_url : String
  file_md5 : Json
  file_size : Json

/-- `SeqFile._parse_file_json` on an already-initialised `Entry`:
projects `dataset`, the replicate triple, `file_type`, `status`, the
absolute `file_url` (the document's `href` joined onto the base URL),
`md5sum` and `file_size`.  A non-string `href` models Python's failure
of `urljoin` on it. -/
def parseFileJson (e : Entry) : Except PyErr SeqFile := do
  let exp ← jget e.json "dataset"
  let r ← parseReplicate e.json
  let ft ← jget e.json "file_type"
  let st ← jget e.json "status"
  let href ← jget e.json "href"
  let hrefStr ← match href with
    | .str s => pure s
    | _ => Except.error PyErr.typeError
  let md5 ← jget e.json "md5sum"
  let fs ← jget e.json "file_size"
  pure ⟨e, exp, r.1, r.2.1, r.2.2, ft, st, urljoin e.baseurl hrefStr, md5, fs⟩

/-- `SeqFile.__init__(fid, json_d)`: an `Entry` with the fixed type
segment `"file"`, then `_parse_file_json`.  Returns the constructed
object (or the propagated exception) and the request count. -/
def seqFileInit (fid : Json) (json_d : Option Json) (fetch : String → Json) :
    Except PyErr SeqFile × Nat :=
  let r := entryInit fid (some "file") json_d fetch
  (r.1.bind parseFileJson, r.2)

/-- The state built by `RawFile.__init__`: a `SeqFile` plus `run_type`
and `read_length`. -/
structure RawFile where
  base : SeqFile
  run_type : Json
  read_length : Json

/-- `RawFile._parse_rawfile_json`: projects `run_type` and
`read_length`. -/
def parseRawfileJson (sf : SeqFile) : Except PyErr RawFile := do
  let rt ← jget sf.entry.json "run_type"
  let rl ← jget sf.entry.json "read_length"
  pure ⟨sf, rt, rl⟩

/-- `RawFile.__init__(fid, json_d)`. -/
def rawFileInit (fid : Json) (json_d : Option Json) (fetch : String → Json) :
    Except PyErr RawFile × Nat :=
  let r := seqFileInit fid json_d fetch
  (r.1.bind parseRawfileJson, r.2)

/-- The state built by `ProcessedFile.__init__`: a `SeqFile` plus
`assembly` and `output_type`. -/
structure ProcessedFile where
  base : SeqFile
  assembly : Json
  output_type : Json

/-- `ProcessedFile._parse_processedfile_json`: projects `assembly` and
`output_type`. -/
def parseProcessedfileJson (sf : SeqFile) : Except PyErr ProcessedFile := do
  let asm ← jget sf.entry.json "assembly"
  let ot ← jget sf.entry.json "output_type"
  pure ⟨sf, asm, ot⟩

/-- `ProcessedFile.__init__(fid, json_d)`. -/
def processedFileInit (fid : Json) (json_d : Option Json) (fetch : String → Json) :
    Except PyErr ProcessedFile × Nat :=
  let r := seqFileInit fid json_d fetch
  (r.1.bind parseProcessedfileJson, r.2)

/-- The Python value passed as the `file_type` argument of
`Exp.fetch_file`: `None`, a single string, a list of strings, or some
other collection such as a set of strings (which is *not* a `list`, so
`isinstance(file_type, list)` is false for it and `file_type ==
f['file_type']` compares a set with a string). -/
inductive FileTypeArg where
  | none : FileTypeArg
  | str : String → FileTypeArg
  | list : List String → FileTypeArg
  | set : List String → FileTypeArg

/-- The classification made at the top of the loop body of
`Exp.fetch_file`: `is_raw = (f['output_category'] == 'raw data')`.
Propagates the `KeyError` of a document without `output_category`. -/
def classifyRaw (f : Json) : Except PyErr Bool :=
  (jget f "output_category").map (fun oc => pyEqStr oc "raw data")

/-- The filter decision of the processed branch of `Exp.fetch_file`:
* `file_type is None` → yield;
* `isinstance(file_type, list)` → yield iff `f['file_type'] in file_type`
  (membership by Python `==`, i.e. equality with one of the strings);
* otherwise (single string, or a non-list collection such as a set) →
  yield iff `file_type == f['file_type']`; for a set this comparison is
  with a string and therefore always false, but `f['file_type']` is
  still evaluated and its `KeyError` still propagates. -/
def processedAdmit (ft : FileTypeArg) (f : Json) : Except PyErr Bool :=
  match ft with
  | .none => .ok true
  | .list l => (jget f "file_type").map (fun v => l.any (fun s => pyEqStr v s))
  | .str s => (jget f "file_type").map (fun v => pyEqStr v s)
  | .set _ => (jget f "file_type").map (fun _ => false)

/-- A value yielded by `Exp.fetch_file`: a `RawFile` or a
`ProcessedFile`. -/
inductive FileEntity where
  | raw : RawFile → FileEntity
  | processed : ProcessedFile → FileEntity

/-- The outcome of one iteration of the loop body of `Exp.fetch_file`
on one file sub-document: skip it, yield an entity (having issued `n`
requests), or terminate the generator with an uncaught exception
(having issued `n` requests). -/
inductive StepRes where
  | skip : StepRes
  | yieldEnt : FileEntity → Nat → StepRes
  | fail : PyErr → Nat → StepRes

/-- One iteration of the loop body of `Exp.fetch_file` on the file
sub-document `f`, following the source order of evaluation: classify via
`output_category`; if the class matches the `raw` flag, read
`f['accession']` (before any filter), then either construct a `RawFile`
(raw branch, `file_type` never consulted) or apply the processed filter
and construct a `ProcessedFile`; each construction receives the embedded
sub-document `f` as its `json_d`. -/
def fileStep (raw : Bool) (ft : FileTypeArg) (fetch : String → Json)
    (f : Json) : StepRes :=
  match classifyRaw f with
  | .error e => .fail e 0
  | .ok is_raw =>
    if raw == is_raw then
      match jget f "accession" with
      | .error e => .fail e 0
      | .ok fid =>
        if is_raw then
          match rawFileInit fid (some f) fetch with
          | (.error e, n) => .fail e n
          | (.ok rf, n) => .yieldEnt (.raw rf) n
        else
          match processedAdmit ft f with
          | .error e => .fail e 0
          | .ok false => .skip
          | .ok true =>
            match processedFileInit fid (some f) fetch with
            | (.error e, n) => .fail e n
            | (.ok pf, n) => .yieldEnt (.processed pf) n
    else
      .skip

/-- The observable behaviour of a run of the generator `Exp.fetch_file`:
the entities yielded before the first uncaught exception, that exception
(if the iteration ends with one rather than with exhaustion), and the
total number of HTTP requests issued. -/
structure GenResult where
  yielded : List FileEntity
  err : Option PyErr
  requests : Nat

/-- The loop of `Exp.fetch_file` over the file list, as the sequence of
generator events: an exception in the step for one document terminates
the iteration after all earlier items have been yielded. -/
def fetchFileLoop (files : List Json) (raw : Bool) (ft : FileTypeArg)
    (fetch : String → Json) : GenResult :=
  match files with
  | [] => ⟨[], none, 0⟩
  | f :: rest =>
    match fileStep raw ft fetch f with
    | .skip => fetchFileLoop rest raw ft fetch
    | .yieldEnt ent n =>
      let r := fetchFileLoop rest raw ft fetch
      ⟨ent :: r.yielded, r.err, n + r.requests⟩
    | .fail e n => ⟨[], some e, n⟩

/-- `Exp.fetch_file(raw, file_type)` on the experiment's backing
document: reads `self.json['files']` and runs the loop.  Consuming a
generator whose document has no `files` list raises before the first
yield.  A non-array `files` value models Python's failure to iterate
it the way the loop body expects. -/
def fetchFile (expJson : Json) (raw : Bool) (ft : FileTypeArg)
    (fetch : String → Json) : GenResult :=
  match jget expJson "files" with
  | .error e => ⟨[], some e, 0⟩
  | .ok (.arr files) => fetchFileLoop files raw ft fetch
  | .ok _ => ⟨[], some .typeError, 0⟩

/-- The state built by `Exp.__init__`: the underlying `Entry` plus
`description` and `assay`. -/
structure Exp where
  entry : Entry
  description : Json
  assay : Json

/-- `Exp._parse_exp_json`: projects `description` and
`assay_term_name`. -/
def parseExpJson (e : Entry) : Except PyErr Exp := do
  let d ← jget e.json "description"
  let a ← jget e.json "assay_term_name"
  pure ⟨e, d, a⟩

/-- `Exp.__init__(exp)`: an `Entry` with the fixed type segment
`"experiments"` and no pre-supplied document (experiments are always
fetched), then `_parse_exp_json`. -/
def expInit (eid : String) (fetch : String → Json) : Except PyErr Exp × Nat :=
  let r := entryInit (.str eid) (some "experiments") none fetch
  (r.1.bind parseExpJson, r.2)

/-- The accession stored in a yielded entity (the `fid` the loop read
from the sub-document). -/
def FileEntity.acc : FileEntity → Json
  | .raw rf => rf.base.entry.accession
  | .processed pf => pf.base.entry.accession

/-- The backing document of a yielded entity. -/
def FileEntity.doc : FileEntity → Json
  | .raw rf => rf.base.entry.json
  | .processed pf => pf.base.entry.json

/-- The accession strings of the entities yielded by a generator run, in
yield order. -/
def yieldAccs (r : GenResult) : List String :=
  r.yielded.map (fun ent => pyStr ent.acc)

/-- A replicate object in shape (a), as embedded in the experiment's file
sub-documents. -/
def encReplicate : Json :=
  .obj [("biological_replicate_number", .num 1),
        ("technical_replicate_number", .num 1),
        ("library", .obj [("strand_specificity", .bool false)])]

/-- A file sub-document with all fields every `SeqFile` projection needs,
plus the subtype-specific `extra` fields. -/
def mkFileDoc (acc oc ft : String) (extra : List (String × Json)) : Json :=
  .obj ([("output_category", .str oc),
         ("accession", .str acc),
         ("dataset", .str "/experiments/ENCSR362AIZ/"),
         ("replicate", encReplicate),
         ("file_type", .str ft),
         ("status", .str "released"),
         ("href", .str ("/files/" ++ acc ++ "/@@download/" ++ acc)),
         ("md5sum", .str "00000000000000000000000000000000"),
         ("file_size", .num 1)] ++ extra)

/-- A raw (fastq) file sub-document. -/
def mkRawDoc (acc : String) : Json :=
  mkFileDoc acc "raw data" "fastq"
    [("run_type", .str "single-ended"), ("read_length", .num 101)]

/-- A processed file sub-document of the given file type. -/
def mkProcDoc (acc ft : String) : Json :=
  mkFileDoc acc "alignment" ft
    [("assembly", .str "mm10"), ("output_type", .str "alignments")]

/-- Modelled from the spec: the accessions and file types, in document
order, of the 22 processed `bam`/`bigWig` files of experiment
`ENCSR362AIZ` (the experiment document itself lives on the ENCODE
server; this list reproduces the spec's concrete scenario, in which the
10 `bam` accessions appear in the same relative order within the
union). -/
def encUnion : List (String × String) :=
  [("ENCFF428JNJ", "bam"), ("ENCFF503VVW", "bigWig"), ("ENCFF592ZRF", "bigWig"),
   ("ENCFF112PJJ", "bam"), ("ENCFF694GJR", "bam"), ("ENCFF941BPF", "bigWig"),
   ("ENCFF285HFJ", "bigWig"), ("ENCFF738MJJ", "bam"), ("ENCFF100LGI", "bigWig"),
   ("ENCFF249QVN", "bam"), ("ENCFF380XIS", "bam"), ("ENCFF623UHM", "bigWig"),
   ("ENCFF461GSJ", "bigWig"), ("ENCFF010GFV", "bigWig"), ("ENCFF047GZO", "bam"),
   ("ENCFF811VPO", "bam"), ("ENCFF281ENU", "bam"), ("ENCFF916AXO", "bam"),
   ("ENCFF190EHR", "bigWig"), ("ENCFF564LUK", "bigWig"), ("ENCFF372TAA", "bigWig"),
   ("ENCFF326RPH", "bigWig")]

/-- Modelled from the spec: the file list of experiment `ENCSR362AIZ` —
the four raw fastq files, the 22 `bam`/`bigWig` processed files of
`encUnion`, and a processed file of another type (`tsv`) that every
`bam`/`bigWig` filter must reject. -/
def encFiles : List Json :=
  [mkRawDoc "ENCFF447EXU", mkRawDoc "ENCFF037JQC",
   mkRawDoc "ENCFF458NWF", mkRawDoc "ENCFF358MFI"] ++
  (encUnion.take 11).map (fun p => mkProcDoc p.1 p.2) ++
  [mkProcDoc "ENCFF000AAA" "tsv"] ++
  (encUnion.drop 11).map (fun p => mkProcDoc p.1 p.2)

/-- Modelled from the spec: the experiment document of `ENCSR362AIZ`. -/
def encExpDoc : Json :=
  .obj [("description", .str "Total RNA-Seq on postnatal 0 day mouse forebrain"),
        ("assay_term_name", .str "RNA-seq"),
        ("files", .arr encFiles)]

/-- A fetch oracle that is never consulted in the claims about
iteration (every entity there is built from an embedded document). -/
def nullFetch : String → Json := fun _ => .null

/-- A file document whose `replicate` object is present but lacks the
`library` key, so shape (a) fails partway, while `technical_replicates`
supplies shape (b). -/
def mixDoc : Json :=
  .obj [("dataset", .str "/experiments/ENCSR000AAA/"),
        ("replicate", .obj [("biological_replicate_number", .num 1),
                            ("technical_replicate_number", .num 1)]),
        ("technical_replicates", .arr [.str "2_1"]),
        ("file_type", .str "bam"),
        ("status", .str "released"),
        ("href", .str "/files/ENCFF000MIX/@@download/ENCFF000MIX.bam"),
        ("md5sum", .str "00000000000000000000000000000000"),
        ("file_size", .num 1)]

/-- The `Entry` built for `mixDoc` when the document is supplied. -/
def mixEntry : Entry :=
  ⟨.str "ENCFF000MIX", "/file/ENCFF000MIX/", "https://www.encodeproject.org/",
   "https://www.encodeproject.org/file/ENCFF000MIX/", mixDoc⟩

/-- The `SeqFile` that `_parse_file_json` builds from `mixEntry`: every
replicate field comes from shape (b). -/
def mixSeqFile : SeqFile :=
  ⟨mixEntry, .str "/experiments/ENCSR000AAA/", .str "2", .str "1", .bool false,
   .str "bam", .str "released",
   "https://www.encodeproject.org/files/ENCFF000MIX/@@download/ENCFF000MIX.bam",
   .str "00000000000000000000000000000000", .num 1⟩

/-- The backing documents of the entities yielded by a generator run. -/
def yieldedDocs (r : GenResult) : List Json :=
  r.yielded.map FileEntity.doc

/-- The embedded file list of an experiment document (empty when there
is none). -/
def filesListOf (expJson : Json) : List Json :=
  match jget expJson "files" with
  | .ok (.arr fs) => fs
  | _ => []

/-- The accessions, in document order, of the raw-classified
sub-documents (those whose `output_category` is "raw data"). -/
def rawAccs (files : List Json) : List String :=
  files.filterMap (fun f =>
    match classifyRaw f, jget f "accession" with
    | .ok true, .ok a => some (pyStr a)
    | _, _ => none)

/-- The accessions, in document order, of the processed-classified
sub-documents whose `file_type` is a member of the list `T`. -/
def procAccs (T : List String) (files : List Json) : List String :=
  files.filterMap (fun f =>
    match classifyRaw f, jget f "accession", jget f "file_type" with
    | .ok false, .ok a, .ok v =>
      cond (T.any (fun s => pyEqStr v s)) (some (pyStr a)) none
    | _, _, _ => none)

/-- Helper: `pyEqStr v s` is true exactly when `v` is the string `s`. -/
theorem pyEqStr_eq_true_iff (v : Json) (s : String) :
    pyEqStr v s = true ↔ v = .str s := by
  cases v <;> simp [pyEqStr]

/-- C3: For every file sub-document, classification is binary and
exhaustive: the item is classified raw if and only if its
`output_category` field equals the literal string "raw data", and
otherwise it is classified processed; every file document (with an
`output_category` field, as the schema requires) falls into exactly one
of the two classes. -/
theorem c3_classification_binary (f oc : Json)
    (h : jget f "output_category" = .ok oc) :
    (classifyRaw f = .ok true ↔ oc = .str "raw data") ∧
    (classifyRaw f = .ok true ∨ classifyRaw f = .ok false) ∧
    ¬(classifyRaw f = .ok true ∧ classifyRaw f = .ok false) := by
  unfold classifyRaw
  rw [h]
  simp only [Except.map]
  refine ⟨?_, ?_, ?_⟩
  · simpa using pyEqStr_eq_true_iff oc "raw data"
  · cases hb : pyEqStr oc "raw data"
    · right; rfl
    · left; rfl
  · rintro ⟨h1, h2⟩
    rw [h1] at h2
    simp at h2

/-- Witness for C3,
at a concrete raw-classified document. -/
theorem c3_witness :
    (classifyRaw (Json.obj [("output_category", Json.str "raw data")]) = .ok true ↔
      Json.str "raw data" = .str "raw data") ∧
    (classifyRaw (Json.obj [("output_category", Json.str "raw data")]) = .ok true ∨
      classifyRaw (Json.obj [("output_category", Json.str "raw data")]) = .ok false) ∧
    ¬(classifyRaw (Json.obj [("output_category", Json.str "raw data")]) = .ok true ∧
      classifyRaw (Json.obj [("output_category", Json.str "raw data")]) = .ok false) :=
  c3_classification_binary (Json.obj [("output_category", Json.str "raw data")])
    (Json.str "raw data") rfl

/-- Helper: whenever shape (b) succeeds, its strandedness component is
the constant `False`. -/
theorem shapeB_stranded (j b t s : Json) (h : shapeB j = .ok (b, t, s)) :
    s = .bool false := by
  unfold shapeB at h
  cases h1 : jget j "technical_replicates" with
  | error e => rw [h1] at h; simp [Bind.bind, Except.bind] at h
  | ok trs =>
    rw [h1] at h
    simp only [Bind.bind, Except.bind] at h
    cases h2 : jindex trs 0 with
    | error e => rw [h2] at h; simp at h
    | ok first =>
      rw [h2] at h
      cases first <;> simp at h
      case str str =>
        cases h3 : pyListGet (pySplit str '_') 0 with
        | error e => rw [h3] at h; simp [Bind.bind, Except.bind] at h
        | ok b0 =>
          rw [h3] at h
          simp only [Bind.bind, Except.bind] at h
          cases h4 : pyListGet (pySplit str '_') 1 with
          | error e => rw [h4] at h; simp at h
          | ok t0 =>
            rw [h4] at h
            simp [pure, Except.pure] at h
            exact h.2.2.symm

/-- C2: For every file document, replicate extraction first attempts
shape (a); when all five keys on the shape-(a) path are present the
extracted triple is theirs.  On a missing-key failure of shape (a) the
extraction falls back to shape (b) (whose strandedness is the constant
`False`), and a document matching neither shape is a hard error with no
other fallback. -/
theorem c2_replicate_resolution (j : Json) :
    (∀ rep b t lib s,
       jget j "replicate" = .ok rep →
       jget rep "biological_replicate_number" = .ok b →
       jget rep "technical_replicate_number" = .ok t →
       jget rep "library" = .ok lib →
       jget lib "strand_specificity" = .ok s →
       parseReplicate j = .ok (b, t, s)) ∧
    (shapeA j = .error .keyError → parseReplicate j = shapeB j) ∧
    (shapeA j = .error .keyError → ∀ e, shapeB j = .error e →
       parseReplicate j = .error e) ∧
    (shapeA j = .error .keyError → ∀ b t s, parseReplicate j = .ok (b, t, s) →
       s = .bool false) := by
  refine ⟨?_, ?_, ?_, ?_⟩
  · intro rep b t lib s h1 h2 h3 h4 h5
    have ha : shapeA j = .ok (b, t, s) := by
      unfold shapeA
      rw [h1]
      simp [Bind.bind, Except.bind, h2, h3, h4, h5, pure, Except.pure]
    unfold parseReplicate
    rw [ha]
  · intro ha
    unfold parseReplicate
    rw [ha]
  · intro ha e hb
    unfold parseReplicate
    rw [ha, hb]
  · intro ha b t s h
    unfold parseReplicate at h
    rw [ha] at h
    exact shapeB_stranded j b t s h

/-- Witness for C2, at a document carrying both shapes (shape (a) wins)
and, through the fallback conjuncts, at a shape-(b)-only document. -/
theorem c2_witness :
    parseReplicate (Json.obj [("replicate", encReplicate)]) =
      .ok (.num 1, .num 1, .bool false) ∧
    parseReplicate (Json.obj [("technical_replicates", Json.arr [.str "2_1"])]) =
      shapeB (Json.obj [("technical_replicates", Json.arr [.str "2_1"])]) ∧
    parseReplicate (Json.obj []) = .error .keyError := by
  refine ⟨?_, ?_, ?_⟩
  · exact (c2_replicate_resolution (Json.obj [("replicate", encReplicate)])).1
      encReplicate (.num 1) (.num 1) (Json.obj [("strand_specificity", Json.bool false)])
      (.bool false) rfl rfl rfl rfl rfl
  · exact (c2_replicate_resolution
      (Json.obj [("technical_replicates", Json.arr [.str "2_1"])])).2.1 rfl
  · exact (c2_replicate_resolution (Json.obj [])).2.2.1 rfl PyErr.keyError rfl

/-- Helper: a successfully constructed `SeqFile` keeps its `Entry`
unchanged, and its replicate triple is exactly the one `parseReplicate`
produced from the backing document. -/
theorem parseFileJson_ok (e : Entry) (sf : SeqFile)
    (h : parseFileJson e = .ok sf) :
    sf.entry = e ∧
    parseReplicate e.json =
      .ok (sf.biological_replicate, sf.technical_replicate, sf.is_stranded) := by
  unfold parseFileJson at h
  cases h1 : jget e.json "dataset" with
  | error e1 => rw [h1] at h; simp [Bind.bind, Except.bind] at h
  | ok exp =>
  rw [h1] at h
  simp only [Bind.bind, Except.bind] at h
  cases h2 : parseReplicate e.json with
  | error e2 => rw [h2] at h; simp at h
  | ok r =>
  rw [h2] at h
  obtain ⟨b, t, s⟩ := r
  cases h3 : jget e.json "file_type" with
  | error e3 => rw [h3] at h; simp at h
  | ok ft =>
  rw [h3] at h
  cases h4 : jget e.json "status" with
  | error e4 => rw [h4] at h; simp at h
  | ok st =>
  rw [h4] at h
  cases h5 : jget e.json "href" with
  | error e5 => rw [h5] at h; simp at h
  | ok href =>
  rw [h5] at h
  cases href <;> simp [pure, Except.pure] at h
  case str hs =>
  cases h6 : jget e.json "md5sum" with
  | error e6 => rw [h6] at h; simp at h
  | ok md5 =>
  rw [h6] at h
  cases h7 : jget e.json "file_size" with
  | error e7 => rw [h7] at h; simp at h
  | ok fs =>
  rw [h7] at h
  simp at h
  subst h
  exact ⟨rfl, rfl⟩

/-- C9: For every file document where shape (a) extraction fails partway,
all three replicate-derived fields of the resulting entity are taken
entirely from shape (b); a constructed `SeqFile` never holds a mixture
of values from the two replicate shapes — its triple is wholly shape
(a)'s or wholly shape (b)'s. -/
theorem c9_no_shape_mixture (e : Entry) (sf : SeqFile)
    (h : parseFileJson e = .ok sf) :
    shapeA e.json =
      .ok (sf.biological_replicate, sf.technical_replicate, sf.is_stranded) ∨
    (shapeA e.json = .error .keyError ∧
     shapeB e.json =
       .ok (sf.biological_replicate, sf.technical_replicate, sf.is_stranded)) := by
  obtain ⟨-, hrep⟩ := parseFileJson_ok e sf h
  unfold parseReplicate at hrep
  cases ha : shapeA e.json with
  | ok r =>
    left
    simp only [ha] at hrep
    exact hrep
  | error err =>
    simp only [ha] at hrep
    cases err with
    | keyError => right; exact ⟨rfl, hrep⟩
    | indexError => simp at hrep
    | typeError => simp at hrep
    | exception m => simp at hrep

/-- Witness for C9, at the partial-shape-(a) document `mixDoc`. -/
theorem c9_witness :
    shapeA mixEntry.json =
      .ok (mixSeqFile.biological_replicate, mixSeqFile.technical_replicate,
           mixSeqFile.is_stranded) ∨
    (shapeA mixEntry.json = .error .keyError ∧
     shapeB mixEntry.json =
       .ok (mixSeqFile.biological_replicate, mixSeqFile.technical_replicate,
            mixSeqFile.is_stranded)) :=
  c9_no_shape_mixture mixEntry mixSeqFile rfl

/-- C7: For every constructed entity, the resource path is
`/<type>/<accession>/` and the resolved URL equals the fixed base origin
joined with that resource path; both are fixed at construction, and the
only operation applied to an `Entry` afterwards (field projection into a
`SeqFile`) leaves it unchanged. -/
theorem c7_url_invariant (eid : Json) (t : String) (jd : Option Json)
    (fetch : String → Json) (e : Entry)
    (h : (entryInit eid (some t) jd fetch).1 = .ok e) :
    e.id = "/" ++ t ++ "/" ++ pyStr eid ++ "/" ∧
    e.baseurl = "https://www.encodeproject.org/" ∧
    e.url = urljoin e.baseurl e.id ∧
    (∀ sf, parseFileJson e = .ok sf → sf.entry = e) := by
  unfold entryInit at h
  cases jd with
  | none =>
    simp at h
    subst h
    exact ⟨rfl, rfl, rfl, fun sf hsf => (parseFileJson_ok _ sf hsf).1⟩
  | some j =>
    simp at h
    subst h
    exact ⟨rfl, rfl, rfl, fun sf hsf => (parseFileJson_ok _ sf hsf).1⟩

/-- Witness for C7, at the concrete construction producing `mixEntry`. -/
theorem c7_witness :
    mixEntry.id = "/" ++ "file" ++ "/" ++ pyStr (.str "ENCFF000MIX") ++ "/" ∧
    mixEntry.baseurl = "https://www.encodeproject.org/" ∧
    mixEntry.url = urljoin mixEntry.baseurl mixEntry.id ∧
    (∀ sf, parseFileJson mixEntry = .ok sf → sf.entry = mixEntry) :=
  c7_url_invariant (.str "ENCFF000MIX") "file" (some mixDoc) nullFetch mixEntry rfl

/-- C8: For every construction where the entity type segment is missing
(`None`), the fatal configuration error is raised immediately: the
result is the exception, no part of the entity exists, and the request
count is zero (no network activity happened first). -/
theorem c8_etype_none (eid : Json) (jd : Option Json) (fetch : String → Json) :
    entryInit eid none jd fetch =
      (.error (.exception "etype should not be None!"), 0) := rfl

/-- C5: For every entity construction, a supplied pre-fetched document
becomes the backing document as-is with zero requests; with no document
exactly one HTTP GET is issued; and in all cases (including the
`SeqFile`/`RawFile`/`ProcessedFile`/`Exp` constructors, and the failing
no-`etype` construction) the side effect is exactly zero or one
request. -/
theorem c5_request_counts (eid j : Json) (t s : String) (et : Option String)
    (jd : Option Json) (fetch : String → Json) :
    ((entryInit eid (some t) (some j) fetch).2 = 0 ∧
     ∃ e, (entryInit eid (some t) (some j) fetch).1 = .ok e ∧ e.json = j) ∧
    (entryInit eid (some t) none fetch).2 = 1 ∧
    (entryInit eid et jd fetch).2 ≤ 1 ∧
    (seqFileInit eid (some j) fetch).2 = 0 ∧
    (seqFileInit eid none fetch).2 = 1 ∧
    (rawFileInit eid (some j) fetch).2 = 0 ∧
    (rawFileInit eid none fetch).2 = 1 ∧
    (processedFileInit eid (some j) fetch).2 = 0 ∧
    (processedFileInit eid none fetch).2 = 1 ∧
    (expInit s fetch).2 = 1 := by
  refine ⟨⟨rfl, _, rfl, rfl⟩, rfl, ?_, rfl, rfl, rfl, rfl, rfl, rfl, rfl⟩
  cases et with
  | none => simp [entryInit]
  | some t2 =>
    cases jd with
    | none => simp [entryInit]
    | some j2 => simp [entryInit]

/-- Helper: a successfully constructed `RawFile` keeps its `SeqFile`
unchanged. -/
theorem parseRawfileJson_ok (sf : SeqFile) (rf : RawFile)
    (h : parseRawfileJson sf = .ok rf) : rf.base = sf := by
  unfold parseRawfileJson at h
  cases h1 : jget sf.entry.json "run_type" with
  | error e1 => rw [h1] at h; simp [Bind.bind, Except.bind] at h
  | ok rt =>
  rw [h1] at h
  simp only [Bind.bind, Except.bind] at h
  cases h2 : jget sf.entry.json "read_length" with
  | error e2 => rw [h2] at h; simp at h
  | ok rl =>
  rw [h2] at h
  simp [pure, Except.pure] at h
  subst h
  rfl

/-- Helper: a successfully constructed `ProcessedFile` keeps its
`SeqFile` unchanged. -/
theorem parseProcessedfileJson_ok (sf : SeqFile) (pf : ProcessedFile)
    (h : parseProcessedfileJson sf = .ok pf) : pf.base = sf := by
  unfold parseProcessedfileJson at h
  cases h1 : jget sf.entry.json "assembly" with
  | error e1 => rw [h1] at h; simp [Bind.bind, Except.bind] at h
  | ok asm =>
  rw [h1] at h
  simp only [Bind.bind, Except.bind] at h
  cases h2 : jget sf.entry.json "output_type" with
  | error e2 => rw [h2] at h; simp at h
  | ok ot =>
  rw [h2] at h
  simp [pure, Except.pure] at h
  subst h
  rfl

/-- Helper: a `RawFile` built with a supplied document stores the given
accession and that document, unchanged. -/
theorem rawFileInit_fields (a f : Json) (fetch : String → Json) (rf : RawFile)
    (h : (rawFileInit a (some f) fetch).1 = .ok rf) :
    rf.base.entry.accession = a ∧ rf.base.entry.json = f := by
  unfold rawFileInit seqFileInit entryInit at h
  simp only [Except.bind] at h
  cases hp : parseFileJson
      ⟨a, "/" ++ "file" ++ "/" ++ pyStr a ++ "/", "https://www.encodeproject.org/",
       urljoin "https://www.encodeproject.org/" ("/" ++ "file" ++ "/" ++ pyStr a ++ "/"),
       f⟩ with
  | error e1 => simp only [hp] at h; exact absurd h (by simp)
  | ok sf =>
    simp only [hp] at h
    have hb := parseRawfileJson_ok sf rf h
    have he := (parseFileJson_ok _ sf hp).1
    rw [hb, he]
    exact ⟨rfl, rfl⟩

/-- Helper: a `ProcessedFile` built with a supplied document stores the
given accession and that document, unchanged. -/
theorem processedFileInit_fields (a f : Json) (fetch : String → Json)
    (pf : ProcessedFile)
    (h : (processedFileInit a (some f) fetch).1 = .ok pf) :
    pf.base.entry.accession = a ∧ pf.base.entry.json = f := by
  unfold processedFileInit seqFileInit entryInit at h
  simp only [Except.bind] at h
  cases hp : parseFileJson
      ⟨a, "/" ++ "file" ++ "/" ++ pyStr a ++ "/", "https://www.encodeproject.org/",
       urljoin "https://www.encodeproject.org/" ("/" ++ "file" ++ "/" ++ pyStr a ++ "/"),
       f⟩ with
  | error e1 => simp only [hp] at h; exact absurd h (by simp)
  | ok sf =>
    simp only [hp] at h
    have hb := parseProcessedfileJson_ok sf pf h
    have he := (parseFileJson_ok _ sf hp).1
    rw [hb, he]
    exact ⟨rfl, rfl⟩

/-- Helper: the loop body issues no request of its own — the oracle is
irrelevant to the step taken, because every entity it constructs is
given the embedded sub-document. -/
theorem fileStep_fetch_indep (raw : Bool) (ft : FileTypeArg)
    (fetch fetch' : String → Json) (f : Json) :
    fileStep raw ft fetch f = fileStep raw ft fetch' f := rfl

/-- Helper: a document whose classification fails ends the iteration. -/
theorem fileStep_cls_fail (raw : Bool) (ft : FileTypeArg)
    (fetch : String → Json) (f : Json) (e : PyErr)
    (h : classifyRaw f = .error e) : fileStep raw ft fetch f = .fail e 0 := by
  unfold fileStep
  rw [h]

/-- Helper: a document whose class does not match the `raw` flag is
skipped. -/
theorem fileStep_class_mismatch (raw : Bool) (ft : FileTypeArg)
    (fetch : String → Json) (f : Json) (b : Bool)
    (hc : classifyRaw f = .ok b) (hm : (raw == b) = false) :
    fileStep raw ft fetch f = .skip := by
  unfold fileStep
  rw [hc]
  simp [hm]

/-- Helper: a raw-classified document under `raw=true` yields its
`RawFile`, with zero requests, whatever `file_type` is. -/
theorem fileStep_raw_yield (ft : FileTypeArg) (fetch : String → Json)
    (f a : Json) (rf : RawFile)
    (hc : classifyRaw f = .ok true) (ha : jget f "accession" = .ok a)
    (hr : (rawFileInit a (some f) fetch).1 = .ok rf) :
    fileStep true ft fetch f = .yieldEnt (.raw rf) 0 := by
  have hpair : rawFileInit a (some f) fetch = (Except.ok rf, 0) := by
    rw [← hr]; rfl
  unfold fileStep
  rw [hc]
  simp only [beq_self_eq_true, if_true]
  rw [ha]
  simp only [if_true]
  rw [hpair]

/-- Helper: a processed-classified document under `raw=false` whose
filter decision is negative is skipped (its accession was still read). -/
theorem fileStep_proc_skip (ft : FileTypeArg) (fetch : String → Json)
    (f a : Json)
    (hc : classifyRaw f = .ok false) (ha : jget f "accession" = .ok a)
    (hd : processedAdmit ft f = .ok false) :
    fileStep false ft fetch f = .skip := by
  unfold fileStep
  rw [hc]
  simp only [beq_self_eq_true, if_true]
  rw [ha]
  simp only [Bool.false_eq_true, if_false]
  rw [hd]

/-- Helper: a processed-classified document under `raw=false` whose
filter decision is positive yields its `ProcessedFile`, with zero
requests. -/
theorem fileStep_proc_yield (ft : FileTypeArg) (fetch : String → Json)
    (f a : Json) (pf : ProcessedFile)
    (hc : classifyRaw f = .ok false) (ha : jget f "accession" = .ok a)
    (hd : processedAdmit ft f = .ok true)
    (hp : (processedFileInit a (some f) fetch).1 = .ok pf) :
    fileStep false ft fetch f = .yieldEnt (.processed pf) 0 := by
  have hpair : processedFileInit a (some f) fetch = (Except.ok pf, 0) := by
    rw [← hp]; rfl
  unfold fileStep
  rw [hc]
  simp only [beq_self_eq_true, if_true]
  rw [ha]
  simp only [Bool.false_eq_true, if_false]
  rw [hd]
  simp only []
  rw [hpair]

/-- Helper: an entity constructor given an embedded document issues no
request (pair form). -/
theorem rawFileInit_some_pair (a f : Json) (fetch : String → Json) :
    rawFileInit a (some f) fetch = ((rawFileInit a (some f) fetch).1, 0) := rfl

/-- Helper: an entity constructor given an embedded document issues no
request (pair form). -/
theorem processedFileInit_some_pair (a f : Json) (fetch : String → Json) :
    processedFileInit a (some f) fetch =
      ((processedFileInit a (some f) fetch).1, 0) := rfl

/-- Helper: exhaustive description of the one-item loop body — every
step is a skip, a zero-request yield of an entity built from the
embedded sub-document, or a zero-request failure. -/
theorem fileStep_cases (raw : Bool) (ft : FileTypeArg) (fetch : String → Json)
    (f : Json) :
    fileStep raw ft fetch f = .skip ∨
    (∃ rf, (∃ a, jget f "accession" = .ok a ∧
       (rawFileInit a (some f) fetch).1 = .ok rf) ∧
       fileStep raw ft fetch f = .yieldEnt (.raw rf) 0) ∨
    (∃ pf, (∃ a, jget f "accession" = .ok a ∧
       (processedFileInit a (some f) fetch).1 = .ok pf) ∧
       fileStep raw ft fetch f = .yieldEnt (.processed pf) 0) ∨
    (∃ e, fileStep raw ft fetch f = .fail e 0) := by
  unfold fileStep
  cases hc : classifyRaw f with
  | error e => right; right; right; exact ⟨e, rfl⟩
  | ok b =>
    cases hm : raw == b with
    | false => left; simp [hm]
    | true =>
      simp only [hm, if_true]
      cases ha : jget f "accession" with
      | error e => right; right; right; exact ⟨e, rfl⟩
      | ok a =>
        cases b with
        | true =>
          simp only [if_true]
          rw [rawFileInit_some_pair a f fetch]
          cases hq : (rawFileInit a (some f) fetch).1 with
          | error e => right; right; right; exact ⟨e, rfl⟩
          | ok rf => right; left; exact ⟨rf, ⟨a, rfl, hq⟩, rfl⟩
        | false =>
          simp only [Bool.false_eq_true, if_false]
          cases hd : processedAdmit ft f with
          | error e => right; right; right; exact ⟨e, rfl⟩
          | ok dec =>
            cases dec with
            | false => left; rfl
            | true =>
              rw [processedFileInit_some_pair a f fetch]
              cases hq : (processedFileInit a (some f) fetch).1 with
              | error e => right; right; right; exact ⟨e, rfl⟩
              | ok pf => right; right; left; exact ⟨pf, ⟨a, rfl, hq⟩, rfl⟩

/-- Helper: a yielding step issued no request and built its entity from
the sub-document it was given. -/
theorem fileStep_yield_inv (raw : Bool) (ft : FileTypeArg)
    (fetch : String → Json) (f : Json) (ent : FileEntity) (n : Nat)
    (h : fileStep raw ft fetch f = .yieldEnt ent n) :
    n = 0 ∧ ent.doc = f := by
  rcases fileStep_cases raw ft fetch f with
    hs | ⟨rf, ⟨a, ha, hq⟩, hs⟩ | ⟨pf, ⟨a, ha, hq⟩, hs⟩ | ⟨e, hs⟩
  · rw [h] at hs; exact absurd hs (by simp)
  · rw [h] at hs
    injection hs with h1 h2
    subst h1; subst h2
    exact ⟨rfl, (rawFileInit_fields a f fetch rf hq).2⟩
  · rw [h] at hs
    injection hs with h1 h2
    subst h1; subst h2
    exact ⟨rfl, (processedFileInit_fields a f fetch pf hq).2⟩
  · rw [h] at hs; exact absurd hs (by simp)

/-- Helper: a failing step issued no request. -/
theorem fileStep_fail_inv (raw : Bool) (ft : FileTypeArg)
    (fetch : String → Json) (f : Json) (e : PyErr) (n : Nat)
    (h : fileStep raw ft fetch f = .fail e n) : n = 0 := by
  rcases fileStep_cases raw ft fetch f with
    hs | ⟨rf, hw, hs⟩ | ⟨pf, hw, hs⟩ | ⟨e2, hs⟩
  · rw [h] at hs; exact absurd hs (by simp)
  · rw [h] at hs; exact absurd hs (by simp)
  · rw [h] at hs; exact absurd hs (by simp)
  · rw [h] at hs
    injection hs with h1 h2

/-- Helper: the loop's behaviour does not depend on the fetch oracle. -/
theorem fetchFileLoop_fetch_indep (files : List Json) (raw : Bool)
    (ft : FileTypeArg) (fetch fetch' : String → Json) :
    fetchFileLoop files raw ft fetch = fetchFileLoop files raw ft fetch' := by
  induction files with
  | nil => rfl
  | cons f rest ih =>
    unfold fetchFileLoop
    rw [fileStep_fetch_indep raw ft fetch fetch' f]
    cases fileStep raw ft fetch' f with
    | skip => exact ih
    | yieldEnt ent n => rw [ih]
    | fail e n => rfl

/-- Helper: the loop issues no requests at all. -/
theorem fetchFileLoop_requests_zero (files : List Json) (raw : Bool)
    (ft : FileTypeArg) (fetch : String → Json) :
    (fetchFileLoop files raw ft fetch).requests = 0 := by
  induction files with
  | nil => rfl
  | cons f rest ih =>
    unfold fetchFileLoop
    cases hs : fileStep raw ft fetch f with
    | skip => exact ih
    | yieldEnt ent n =>
      have hn := (fileStep_yield_inv raw ft fetch f ent n hs).1
      simp [hn, ih]
    | fail e n =>
      have hn := fileStep_fail_inv raw ft fetch f e n hs
      simp [hn]

/-- Helper: every yielded entity's backing document is one of the
iterated sub-documents. -/
theorem fetchFileLoop_docs (files : List Json) (raw : Bool)
    (ft : FileTypeArg) (fetch : String → Json) :
    yieldedDocs (fetchFileLoop files raw ft fetch) ⊆ files := by
  induction files with
  | nil => simp [fetchFileLoop, yieldedDocs]
  | cons f rest ih =>
    unfold fetchFileLoop
    cases hs : fileStep raw ft fetch f with
    | skip =>
      intro x hx
      exact List.mem_cons_of_mem f (ih hx)
    | yieldEnt ent n =>
      intro x hx
      simp only [yieldedDocs, List.map_cons, List.mem_cons] at hx
      rcases hx with h1 | h2
      · rw [h1, (fileStep_yield_inv raw ft fetch f ent n hs).2]
        exact List.mem_cons_self f rest
      · exact List.mem_cons_of_mem f (ih h2)
    | fail e n =>
      intro x hx
      simp [yieldedDocs] at hx

/-- C6: For every experiment document, iterating `fetch_file` performs
no network I/O of its own: the request count is zero, the run does not
depend on the fetch oracle at all, and every yielded entity's backing
document is an embedded sub-document of the experiment's file list (no
per-file fetch occurs). -/
theorem c6_iterator_no_network (expJson : Json) (raw : Bool) (ft : FileTypeArg)
    (fetch fetch' : String → Json) :
    (fetchFile expJson raw ft fetch).requests = 0 ∧
    fetchFile expJson raw ft fetch = fetchFile expJson raw ft fetch' ∧
    yieldedDocs (fetchFile expJson raw ft fetch) ⊆ filesListOf expJson := by
  unfold fetchFile filesListOf
  cases hg : jget expJson "files" with
  | error e => exact ⟨rfl, rfl, by simp [yieldedDocs]⟩
  | ok v =>
    cases v with
    | arr files =>
      exact ⟨fetchFileLoop_requests_zero files raw ft fetch,
             fetchFileLoop_fetch_indep files raw ft fetch fetch',
             fetchFileLoop_docs files raw ft fetch⟩
    | null => exact ⟨rfl, rfl, by simp [yieldedDocs]⟩
    | bool b => exact ⟨rfl, rfl, by simp [yieldedDocs]⟩
    | num n => exact ⟨rfl, rfl, by simp [yieldedDocs]⟩
    | str s => exact ⟨rfl, rfl, by simp [yieldedDocs]⟩
    | obj kvs => exact ⟨rfl, rfl, by simp [yieldedDocs]⟩

/-- Helper: under `raw=true` the loop body never consults `file_type`:
the processed branch holding the filter is unreachable. -/
theorem fileStep_raw_ft_indep (ft ft' : FileTypeArg) (fetch : String → Json)
    (f : Json) : fileStep true ft fetch f = fileStep true ft' fetch f := by
  unfold fileStep
  cases classifyRaw f with
  | error e => rfl
  | ok b => cases b <;> rfl

/-- Helper: under `raw=true`, when every document classifies and every
raw-classified document constructs, the loop yields exactly the
raw-classified accessions in document order and ends without error. -/
theorem fetchFileLoop_raw_char (files : List Json) (ft : FileTypeArg)
    (fetch : String → Json)
    (h : ∀ f ∈ files, (∃ b, classifyRaw f = .ok b) ∧
      (classifyRaw f = .ok true →
        ∃ a rf, jget f "accession" = .ok a ∧
          (rawFileInit a (some f) fetch).1 = .ok rf)) :
    yieldAccs (fetchFileLoop files true ft fetch) = rawAccs files ∧
    (fetchFileLoop files true ft fetch).err = none := by
  induction files with
  | nil => exact ⟨rfl, rfl⟩
  | cons f rest ih =>
    obtain ⟨⟨b, hb⟩, hr⟩ := h f (List.mem_cons_self f rest)
    have hrest := ih (fun g hg => h g (List.mem_cons_of_mem f hg))
    unfold fetchFileLoop
    cases b with
    | false =>
      rw [fileStep_class_mismatch true ft fetch f false hb rfl]
      refine ⟨?_, hrest.2⟩
      rw [hrest.1]
      simp [rawAccs, List.filterMap_cons, hb]
    | true =>
      obtain ⟨a, rf, ha, hq⟩ := hr hb
      rw [fileStep_raw_yield ft fetch f a rf hb ha hq]
      refine ⟨?_, hrest.2⟩
      have hacc : rf.base.entry.accession = a := (rawFileInit_fields a f fetch rf hq).1
      show pyStr (FileEntity.raw rf).acc :: yieldAccs (fetchFileLoop rest true ft fetch) =
        rawAccs (f :: rest)
      rw [hrest.1]
      simp [rawAccs, List.filterMap_cons, hb, ha, FileEntity.acc, hacc]

/-- Helper: under `raw=true` the whole loop is independent of the
`file_type` argument. -/
theorem fetchFileLoop_raw_ft_indep (files : List Json) (ft ft' : FileTypeArg)
    (fetch : String → Json) :
    fetchFileLoop files true ft fetch = fetchFileLoop files true ft' fetch := by
  induction files with
  | nil => rfl
  | cons f rest ih =>
    unfold fetchFileLoop
    rw [fileStep_raw_ft_indep ft ft' fetch f]
    cases fileStep true ft' fetch f with
    | skip => exact ih
    | yieldEnt ent n => rw [ih]
    | fail e n => rfl

/-- C4: For every experiment document and every `file_type` argument
value, `fetch_file(raw=true, file_type=...)` ignores the `file_type`
argument entirely (the run is identical for any two values), and —
whenever every sub-document classifies and every raw-classified one
constructs — yields every raw-classified entry of the experiment's file
list, in document order. -/
theorem c4_raw_ignores_filter (expJson : Json) (ft ft' : FileTypeArg)
    (fetch : String → Json) :
    fetchFile expJson true ft fetch = fetchFile expJson true ft' fetch ∧
    ∀ files, jget expJson "files" = .ok (.arr files) →
      (∀ f ∈ files, (∃ b, classifyRaw f = .ok b) ∧
        (classifyRaw f = .ok true →
          ∃ a rf, jget f "accession" = .ok a ∧
            (rawFileInit a (some f) fetch).1 = .ok rf)) →
      (yieldAccs (fetchFile expJson true ft fetch) = rawAccs files ∧
       (fetchFile expJson true ft fetch).err = none) := by
  constructor
  · unfold fetchFile
    cases jget expJson "files" with
    | error e => rfl
    | ok v =>
      cases v with
      | arr files => exact fetchFileLoop_raw_ft_indep files ft ft' fetch
      | null => rfl
      | bool b => rfl
      | num n => rfl
      | str s => rfl
      | obj kvs => rfl
  · intro files hg h
    unfold fetchFile
    rw [hg]
    exact fetchFileLoop_raw_char files ft fetch h

/-- Witness for C4, at a one-raw-file experiment document. -/
theorem c4_witness :
    yieldAccs (fetchFile (Json.obj [("files", Json.arr [mkRawDoc "A"])])
      true .none nullFetch) = rawAccs [mkRawDoc "A"] ∧
    (fetchFile (Json.obj [("files", Json.arr [mkRawDoc "A"])])
      true .none nullFetch).err = none :=
  (c4_raw_ignores_filter (Json.obj [("files", Json.arr [mkRawDoc "A"])])
    .none .none nullFetch).2 [mkRawDoc "A"] rfl (by
      intro f hf
      simp only [List.mem_singleton] at hf
      subst hf
      exact ⟨⟨true, rfl⟩, fun _ => ⟨.str "A", _, rfl, rfl⟩⟩)

/-- Counterexample to C1: a set is not a Python `list`, so
`isinstance(file_type, list)` is false and the generator falls into the
`file_type == f['file_type']` comparison, which is always false for a
set.  A processed-classified document whose `file_type` ("bam") is a
member of the set {"bam","bigWig"} is therefore NOT yielded — the run
yields nothing, and on the modelled `ENCSR362AIZ` document the set
argument yields 0 accessions rather than the claimed 22. -/
theorem c1_counterexample :
    classifyRaw (mkProcDoc "A" "bam") = .ok false ∧
    jget (mkProcDoc "A" "bam") "file_type" = .ok (.str "bam") ∧
    "bam" ∈ (["bam", "bigWig"] : List String) ∧
    yieldAccs (fetchFile (Json.obj [("files", Json.arr [mkProcDoc "A" "bam"])])
      false (.set ["bam", "bigWig"]) nullFetch) = [] ∧
    yieldAccs (fetchFile encExpDoc false (.set ["bam", "bigWig"]) nullFetch) = [] := by
  refine ⟨rfl, rfl, by decide, by decide, by decide⟩

/-- Helper: under `raw=false` with a list filter, when every document
classifies and every processed-classified document reads its accession
and file type (and, when admitted, constructs), the loop yields exactly
the processed-classified member-of-`T` accessions in document order and
ends without error. -/
theorem fetchFileLoop_proc_list_char (files : List Json) (T : List String)
    (fetch : String → Json)
    (h : ∀ f ∈ files, (∃ b, classifyRaw f = .ok b) ∧
      (classifyRaw f = .ok false →
        ∃ a v, jget f "accession" = .ok a ∧ jget f "file_type" = .ok v ∧
          (T.any (fun s => pyEqStr v s) = true →
            ∃ pf, (processedFileInit a (some f) fetch).1 = .ok pf))) :
    yieldAccs (fetchFileLoop files false (.list T) fetch) = procAccs T files ∧
    (fetchFileLoop files false (.list T) fetch).err = none := by
  induction files with
  | nil => exact ⟨rfl, rfl⟩
  | cons f rest ih =>
    obtain ⟨⟨b, hb⟩, hp⟩ := h f (List.mem_cons_self f rest)
    have hrest := ih (fun g hg => h g (List.mem_cons_of_mem f hg))
    unfold fetchFileLoop
    cases b with
    | true =>
      rw [fileStep_class_mismatch false (.list T) fetch f true hb rfl]
      refine ⟨?_, hrest.2⟩
      rw [hrest.1]
      simp [procAccs, List.filterMap_cons, hb]
    | false =>
      obtain ⟨a, v, ha, hv, hc⟩ := hp hb
      have hadm : processedAdmit (.list T) f =
          .ok (T.any (fun s => pyEqStr v s)) := by
        unfold processedAdmit
        rw [hv]
        rfl
      cases hT : T.any (fun s => pyEqStr v s) with
      | false =>
        rw [fileStep_proc_skip (.list T) fetch f a hb ha (by rw [hadm, hT])]
        refine ⟨?_, hrest.2⟩
        rw [hrest.1]
        simp only [procAccs, List.filterMap_cons, hb, ha, hv, hT, cond_false]
      | true =>
        obtain ⟨pf, hq⟩ := hc hT
        rw [fileStep_proc_yield (.list T) fetch f a pf hb ha (by rw [hadm, hT]) hq]
        refine ⟨?_, hrest.2⟩
        have hacc : pf.base.entry.accession = a :=
          (processedFileInit_fields a f fetch pf hq).1
        show pyStr (FileEntity.processed pf).acc ::
            yieldAccs (fetchFileLoop rest false (.list T) fetch) =
          procAccs T (f :: rest)
        rw [hrest.1]
        simp only [procAccs, List.filterMap_cons, hb, ha, hv, hT, cond_true,
          FileEntity.acc, hacc]

/-- C1 (amended): For every experiment document and every Python *list*
T of strings, `fetch_file(raw=false, file_type=T)` yields exactly the
processed-classified entries whose `file_type` field is a member of T,
in document order (whenever every sub-document classifies, every
processed one reads its fields, and every admitted one constructs); a
non-list collection such as a set matches nothing.  In particular, on
the modelled `ENCSR362AIZ` document, passing the list ["bam","bigWig"]
yields exactly the 22 union accessions, in document order, with no
duplicates. -/
theorem c1_list_filter :
    (∀ expJson T fetch files, jget expJson "files" = .ok (.arr files) →
      (∀ f ∈ files, (∃ b, classifyRaw f = .ok b) ∧
        (classifyRaw f = .ok false →
          ∃ a v, jget f "accession" = .ok a ∧ jget f "file_type" = .ok v ∧
            (T.any (fun s => pyEqStr v s) = true →
              ∃ pf, (processedFileInit a (some f) fetch).1 = .ok pf))) →
      (yieldAccs (fetchFile expJson false (.list T) fetch) = procAccs T files ∧
       (fetchFile expJson false (.list T) fetch).err = none)) ∧
    yieldAccs (fetchFile encExpDoc false (.list ["bam", "bigWig"]) nullFetch) =
      encUnion.map (fun p => p.1) ∧
    (encUnion.map (fun p => p.1)).length = 22 ∧
    (yieldAccs (fetchFile encExpDoc false (.list ["bam", "bigWig"]) nullFetch)).Nodup ∧
    yieldAccs (fetchFile encExpDoc false (.list ["bam", "bigWig"]) nullFetch) =
      procAccs ["bam", "bigWig"] encFiles := by
  refine ⟨?_, by decide, by decide, by decide, by decide⟩
  intro expJson T fetch files hg h
  unfold fetchFile
  rw [hg]
  exact fetchFileLoop_proc_list_char files T fetch h

/-- Witness for C1, at a one-processed-file experiment document with
the list filter ["bam"]. -/
theorem c1_witness :
    yieldAccs (fetchFile (Json.obj [("files", Json.arr [mkProcDoc "A" "bam"])])
      false (.list ["bam"]) nullFetch) = procAccs ["bam"] [mkProcDoc "A" "bam"] ∧
    (fetchFile (Json.obj [("files", Json.arr [mkProcDoc "A" "bam"])])
      false (.list ["bam"]) nullFetch).err = none :=
  c1_list_filter.1 (Json.obj [("files", Json.arr [mkProcDoc "A" "bam"])])
    ["bam"] nullFetch [mkProcDoc "A" "bam"] rfl (by
      intro f hf
      simp only [List.mem_singleton] at hf
      subst hf
      exact ⟨⟨false, rfl⟩,
        fun _ => ⟨.str "A", .str "bam", rfl, rfl, fun _ => ⟨_, rfl⟩⟩⟩)

/-- Helper: a run over `pre ++ suf` whose prefix raises no exception is
the prefix's yields followed by the suffix's run. -/
theorem fetchFileLoop_append (pre suf : List Json) (raw : Bool)
    (ft : FileTypeArg) (fetch : String → Json)
    (h : (fetchFileLoop pre raw ft fetch).err = none) :
    fetchFileLoop (pre ++ suf) raw ft fetch =
      ⟨(fetchFileLoop pre raw ft fetch).yielded ++
         (fetchFileLoop suf raw ft fetch).yielded,
       (fetchFileLoop suf raw ft fetch).err,
       (fetchFileLoop pre raw ft fetch).requests +
         (fetchFileLoop suf raw ft fetch).requests⟩ := by
  induction pre with
  | nil => simp [fetchFileLoop]
  | cons f rest ih =>
    simp only [List.cons_append, fetchFileLoop] at h ⊢
    cases hs : fileStep raw ft fetch f with
    | skip =>
      simp only [hs, List.append_eq] at h ⊢
      exact ih h
    | yieldEnt ent n =>
      simp only [hs, List.append_eq] at h ⊢
      rw [ih h]
      simp [Nat.add_assoc]
    | fail e n =>
      simp only [hs] at h
      simp at h

/-- C10: `fetch_file` is a lazy generator, modelled as the total
function `fetchFileLoop` (creating the generator is pure and never
raises); an uncaught exception in the step for one admitted
sub-document surfaces only at that point of consumption: every earlier
item has already been yielded (the yields of the error-free prefix are
exactly preserved) and the run then terminates with that exception. -/
theorem c10_lazy_error_surfacing (pre : List Json) (f : Json)
    (rest : List Json) (raw : Bool) (ft : FileTypeArg)
    (fetch : String → Json) (e : PyErr) (n : Nat)
    (hpre : (fetchFileLoop pre raw ft fetch).err = none)
    (hf : fileStep raw ft fetch f = .fail e n) :
    (fetchFileLoop (pre ++ f :: rest) raw ft fetch).yielded =
      (fetchFileLoop pre raw ft fetch).yielded ∧
    (fetchFileLoop (pre ++ f :: rest) raw ft fetch).err = some e := by
  rw [fetchFileLoop_append pre (f :: rest) raw ft fetch hpre]
  have hsuf : fetchFileLoop (f :: rest) raw ft fetch = ⟨[], some e, n⟩ := by
    unfold fetchFileLoop
    rw [hf]
  rw [hsuf]
  simp

/-- Witness for C10: a two-raw-file experiment whose second raw
sub-document lacks `run_type`; the first file is yielded, then the
schema error surfaces. -/
theorem c10_witness :
    (fetchFileLoop ([mkRawDoc "R1"] ++
        mkFileDoc "R2" "raw data" "fastq" [] :: []) true .none nullFetch).yielded =
      (fetchFileLoop [mkRawDoc "R1"] true .none nullFetch).yielded ∧
    (fetchFileLoop ([mkRawDoc "R1"] ++
        mkFileDoc "R2" "raw data" "fastq" [] :: []) true .none nullFetch).err =
      some .keyError :=
  c10_lazy_error_surfacing [mkRawDoc "R1"] (mkFileDoc "R2" "raw data" "fastq" [])
    [] true .none nullFetch .keyError 0 rfl rfl

/-- Witness for C6, at the modelled `ENCSR362AIZ` document and two
different fetch oracles. -/
theorem c6_witness :
    (fetchFile encExpDoc true .none nullFetch).requests = 0 ∧
    fetchFile encExpDoc true .none nullFetch =
      fetchFile encExpDoc true .none (fun _ => .bool true) ∧
    yieldedDocs (fetchFile encExpDoc true .none nullFetch) ⊆
      filesListOf encExpDoc :=
  c6_iterator_no_network encExpDoc true .none nullFetch (fun _ => .bool true)
